import Mathlib

/-!
Shallow embedding of the SentientOS single-file chat application
(source: app.py). The definitions below translate, one by one, the pure
logic of the program: the in-memory token storage, the auth recovery
block run at the top of every page load, the database helper functions
(save_msg with its foreign-key compensation, update_chat_title,
get_msgs), the upload handler, the turn-submission block with its
streaming inference call, and the transcript rendering loop. Remote
services (the account store backend and the inference endpoint) are
modelled as oracle parameters; the relational foreign-key behaviour of
the message table is modelled explicitly.

Python string primitives used by the code (split, replace, strip, the
`in` containment test) are embedded as executable functions on lists of
characters, because the claims about rendering depend on their exact
semantics: split on every non-overlapping occurrence from the left,
replace every non-overlapping occurrence, strip whitespace from both
ends.
-/

namespace SentientOS

/-! ## Python string primitives -/

/-- Fuel-driven worker for `pySplit`. Walks the character list; whenever
the separator is a prefix of the remaining input it emits the
accumulated segment and skips the separator, mirroring CPython
`str.split` with a non-empty separator. The fuel is an upper bound on
the number of characters consumed and never runs out at the call site
below. -/
def pySplitGo (sep : List Char) : Nat → List Char → List Char → List (List Char)
  | 0, l, acc => [acc.reverse ++ l]
  | _ + 1, [], acc => [acc.reverse]
  | fuel + 1, c :: rest, acc =>
    if List.isPrefixOf sep (c :: rest) then
      acc.reverse :: pySplitGo sep fuel (List.drop sep.length (c :: rest)) []
    else
      pySplitGo sep fuel rest (c :: acc)

/-- Python `l.split(sep)` for a non-empty separator. -/
def pySplit (l sep : List Char) : List (List Char) :=
  pySplitGo sep (l.length + 1) l []

/-- Fuel-driven worker for `pyReplace`. -/
def pyReplaceGo (pat rep : List Char) : Nat → List Char → List Char
  | 0, l => l
  | _ + 1, [] => []
  | fuel + 1, c :: rest =>
    if List.isPrefixOf pat (c :: rest) then
      rep ++ pyReplaceGo pat rep fuel (List.drop pat.length (c :: rest))
    else
      c :: pyReplaceGo pat rep fuel rest

/-- Python `l.replace(pat, rep)` for a non-empty pattern: every
non-overlapping occurrence, scanning left to right. -/
def pyReplace (l pat rep : List Char) : List Char :=
  pyReplaceGo pat rep (l.length + 1) l

/-- The characters Python `str.strip()` removes by default: every
character `str.isspace()` accepts, which is the ASCII whitespace
run 09-0D, the separators 1C-1F, the space, NEL (85), NBSP (A0), and
the Unicode space separators (1680, 2000-200A, 2028, 2029, 202F, 205F,
3000). -/
def isPySpace (c : Char) : Bool :=
  c == ' ' || c == '\t' || c == '\n' || c == '\r' || c == '\x0b' || c == '\x0c'
    || c == '\x1c' || c == '\x1d' || c == '\x1e' || c == '\x1f'
    || c == '\x85' || c == '\xa0' || c == '\u1680'
    || c == '\u2000' || c == '\u2001' || c == '\u2002' || c == '\u2003'
    || c == '\u2004' || c == '\u2005' || c == '\u2006' || c == '\u2007'
    || c == '\u2008' || c == '\u2009' || c == '\u200a'
    || c == '\u2028' || c == '\u2029' || c == '\u202f' || c == '\u205f'
    || c == '\u3000'

/-- Python `l.strip()`: drop whitespace from both ends. -/
def pyStrip (l : List Char) : List Char :=
  ((l.dropWhile isPySpace).reverse.dropWhile isPySpace).reverse

/-- Python `pat in s` for strings, expressed through `pySplit`: a
non-empty pattern occurs in `s` exactly when splitting on it yields at
least two segments. This is the containment test the rendering loop
performs, and it is deliberately tied to the same split function the
loop then indexes into. -/
def containsSub (s pat : String) : Bool :=
  decide (1 < (pySplit s.data pat.data).length)

/-! ## Data model (tables of the remote account store) -/

/-- One row of the `chat_messages` table (`msg_id` and `created_at` are
backend-generated and play no role in the claims). -/
structure Msg where
  chat_id : String
  role : String
  content : String
deriving DecidableEq

/-- One row of the `chat_sessions` table. -/
structure ChatSession where
  chat_id : String
  email : String
  title : String
deriving DecidableEq

/-- The state of the two tables the chat logic touches, rows in
creation order (the backend orders reads by `created_at` ascending). -/
structure Db where
  sessions : List ChatSession
  messages : List Msg
deriving DecidableEq

/-- Error classes an insert can raise: the foreign-key violation the
backend raises when `chat_messages.chat_id` references no
`chat_sessions` row, or any other (network/server) failure. -/
inductive InsertError where
  | fkViolation
  | otherError
deriving DecidableEq

/-- The text `str(e)` of each error class; the foreign-key violation
carries the Postgres error code 23503 that `save_msg` greps for. -/
def str_of_error : InsertError → String
  | InsertError.fkViolation =>
      "insert or update on table chat_messages violates foreign key constraint: code 23503"
  | InsertError.otherError => "network error: connection reset by peer"

/-- Whether a `chat_sessions` row with this id exists. -/
def chat_exists (db : Db) (chat_id : String) : Bool :=
  db.sessions.any (fun s => s.chat_id == chat_id)

/-- The backend insert into `chat_messages`: raises a foreign-key
violation when the owning conversation is missing; `fault` injects any
other error class (network failure and the like). -/
def insert_message (db : Db) (m : Msg) (fault : Bool) : Except InsertError Db :=
  if fault then Except.error InsertError.otherError
  else if chat_exists db m.chat_id then
    Except.ok { db with messages := db.messages ++ [m] }
  else Except.error InsertError.fkViolation

/-- The backend insert into `chat_sessions`. -/
def insert_session (db : Db) (s : ChatSession) : Db :=
  { db with sessions := db.sessions ++ [s] }

/-- Python truthiness of the optional `email_fallback` argument: `None`
and the empty string are falsy. -/
def truthy : Option String → Bool
  | none => false
  | some s => s != ""

/-- app.py lines 122-128, `save_msg`: try the insert; on an exception
whose text contains `23503` and with a truthy `email_fallback`,
recreate the conversation row (same id, fallback email, title
`Restored Sequence`) and retry the insert once; on any other error, or
without a fallback email, do nothing (the message is dropped). -/
def save_msg (db : Db) (chat_id role content : String)
    (email_fallback : Option String) (fault : Bool) : Db :=
  match insert_message db (Msg.mk chat_id role content) fault with
  | Except.ok db2 => db2
  | Except.error e =>
    if containsSub (str_of_error e) "23503" && truthy email_fallback then
      let db1 := insert_session db
        (ChatSession.mk chat_id (email_fallback.getD "") "Restored Sequence")
      match insert_message db1 (Msg.mk chat_id role content) false with
      | Except.ok db2 => db2
      | Except.error _ => db1
    else db

/-- app.py lines 115-116, `update_chat_title`. -/
def update_chat_title (db : Db) (chat_id new_title : String) : Db :=
  { db with
    sessions := db.sessions.map
      (fun s => if s.chat_id == chat_id then { s with title := new_title } else s) }

/-- app.py lines 130-132, `get_msgs`: the messages of one conversation
in creation order. -/
def get_msgs (db : Db) (chat_id : String) : List Msg :=
  db.messages.filter (fun m => m.chat_id == chat_id)

/-- Number of messages carrying a given role. -/
def countRole (l : List Msg) (role : String) : Nat :=
  (l.filter (fun m => m.role == role)).length

/-! ## Session token holder (MemoryStorage, app.py lines 28-33) -/

structure MemoryStorage where
  storage : List (String × String)
deriving DecidableEq

/-- `set_item`: dictionary assignment `self.storage[key] = value`. -/
def set_item (s : MemoryStorage) (key value : String) : MemoryStorage :=
  if (s.storage.lookup key).isSome then
    MemoryStorage.mk
      (s.storage.map (fun p => if p.1 == key then (key, value) else p))
  else MemoryStorage.mk (s.storage ++ [(key, value)])

/-- `get_item`: `self.storage.get(key)`, absent keys give `None`. -/
def get_item (s : MemoryStorage) (key : String) : Option String :=
  s.storage.lookup key

/-- `remove_item`: delete the key only if present. -/
def remove_item (s : MemoryStorage) (key : String) : MemoryStorage :=
  if (s.storage.lookup key).isSome then
    MemoryStorage.mk (s.storage.filter (fun p => !(p.1 == key)))
  else s

/-! ## Auth recovery flow (app.py lines 69-94) -/

structure TokenPair where
  access_token : String
  refresh_token : String
deriving DecidableEq

/-- The request-visible state the block reads and writes: the optional
`code` query parameter and the token pair kept in
`st.session_state.auth_session`. -/
structure ReqState where
  query_code : Option String
  auth_session : Option TokenPair
deriving DecidableEq

/-- Backend answer to `exchange_code_for_session`. -/
inductive ExchangeResult where
  | success (tp : TokenPair)
  | failure (err : String)
deriving DecidableEq

/-- Oracle for the two backend auth calls the block makes. -/
structure AuthEnv where
  exchange : String → ExchangeResult
  set_session_ok : TokenPair → Bool

inductive AuthOutcome where
  | NO_SESSION
  | AUTHENTICATED (tp : TokenPair)
deriving DecidableEq

/-- What one pass of the block produced: the state it leaves behind,
the outcome it reached (`none` when `st.rerun` aborted the pass before
an outcome was computed), and which observable effects happened. -/
structure FlowResult where
  state : ReqState
  outcome : Option AuthOutcome
  rerun : Bool
  exchange_attempted : Bool
  set_session_attempted : Bool
  error_surfaced : Bool
deriving DecidableEq

/-- app.py lines 84-94: install the stored session if there is one;
on failure clear it. `st.error` is never called on any path of the
block (the diagnostic on line 82 is commented out), so
`error_surfaced` is false on every branch. -/
def install_stored (env : AuthEnv) (s : ReqState) (exchanged : Bool) : FlowResult :=
  match s.auth_session with
  | none =>
    FlowResult.mk s (some AuthOutcome.NO_SESSION) false exchanged false false
  | some tp =>
    if env.set_session_ok tp then
      FlowResult.mk s (some (AuthOutcome.AUTHENTICATED tp)) false exchanged true false
    else
      FlowResult.mk (ReqState.mk s.query_code none) (some AuthOutcome.NO_SESSION)
        false exchanged true false

/-- app.py lines 69-94, the module-level auth recovery block: when a
`code` query parameter is present, exchange it; on success store the
session, clear the query parameters and rerun (aborting this pass); on
failure clear the query parameters and fall through to the stored
session check. Without a code, go straight to the stored session
check. -/
def auth_recovery_flow (env : AuthEnv) (s : ReqState) : FlowResult :=
  match s.query_code with
  | some code =>
    match env.exchange code with
    | ExchangeResult.success tp =>
      FlowResult.mk (ReqState.mk none (some tp)) none true true false false
    | ExchangeResult.failure _ =>
      install_stored env (ReqState.mk none s.auth_session) true
  | none => install_stored env s false

/-! ## Chat orchestration (app.py lines 280-362) -/

def APP_NAME : String := "Sentient OS"

/-- One entry of the `messages` list sent to the inference API. -/
structure ApiMsg where
  role : String
  content : String
deriving DecidableEq

/-- app.py lines 343-345: the system instruction, premium tier getting
the extra reasoning-tag sentence. -/
def turn_system_prompt (user_premium : Bool) : String :=
  let sys := "You are " ++ APP_NAME ++ "."
  if user_premium then sys ++ " You are on Sentient Pro. Use <thinking> tags for reasoning."
  else sys ++ " You are on Sentient Core."

/-- app.py lines 347-349: system instruction, then the already-fetched
transcript, then the new user prompt. -/
def assemble_transcript (user_premium : Bool) (msgs : List Msg)
    (final_prompt : String) : List ApiMsg :=
  ApiMsg.mk "system" (turn_system_prompt user_premium)
    :: (msgs.map (fun m => ApiMsg.mk m.role m.content) ++ [ApiMsg.mk "user" final_prompt])

/-- Behaviour of one streaming inference call: the delta contents it
yields (each possibly `None`, which the code maps to the empty string),
and whether iteration ends normally or raises after those chunks. -/
inductive StreamOutcome where
  | complete (chunks : List (Option String))
  | raisesAfter (chunks : List (Option String))
deriving DecidableEq

/-- app.py lines 354-356: `full_resp` accumulated over the chunks,
`None` deltas contributing nothing. -/
def accumulate (chunks : List (Option String)) : String :=
  chunks.foldl (fun acc c => acc ++ c.getD "") ""

structure TurnOutcome where
  db : Db
  error_shown : Bool
  rerun : Bool
deriving DecidableEq

/-- app.py lines 338-362, the submit-turn block: persist the user
message, assemble the transcript from the messages fetched before this
turn, run the streaming call; on normal completion persist the
accumulated text as the assistant message and rerun; if the stream
raises, show the error and persist nothing further. -/
def submit_turn (db : Db) (user_premium : Bool) (chat_id email final_prompt : String)
    (streamFn : List ApiMsg → StreamOutcome) : TurnOutcome :=
  let msgs := get_msgs db chat_id
  let db1 := save_msg db chat_id "user" final_prompt (some email) false
  let api_msgs := assemble_transcript user_premium msgs final_prompt
  match streamFn api_msgs with
  | StreamOutcome.complete chunks =>
    TurnOutcome.mk
      (save_msg db1 chat_id "assistant" (accumulate chunks) (some email) false)
      false true
  | StreamOutcome.raisesAfter _ =>
    TurnOutcome.mk db1 true false

/-- app.py lines 137-145, `process_uploaded_file`: page-wise text for
the PDF type, utf-8 decode otherwise; any exception (a failing reader,
modelled by `reader_fails`, or a failing decode, modelled by a `none`
`decoded`) is swallowed into the sentinel string. -/
def process_uploaded_file (mime : String) (pdfPages : List String)
    (decoded : Option String) (reader_fails : Bool) : String :=
  if reader_fails then "Error reading file."
  else if mime == "application/pdf" then
    pdfPages.foldl (fun text p => text ++ p ++ "\n") ""
  else
    match decoded with
    | some t => t
    | none => "Error reading file."

structure UploadOutcome where
  db : Db
  error_shown : Bool
  rerun : Bool
deriving DecidableEq

/-- app.py lines 280-296, the upload handler: extract the content,
rename the conversation, persist the user message describing the
upload, then run the one-shot analysis call; on success persist the
assistant message and rerun, on failure show the error. -/
def handle_upload (db : Db) (chat_id email fname mime : String)
    (pdfPages : List String) (decoded : Option String) (reader_fails : Bool)
    (infer : List ApiMsg → Except String String) : UploadOutcome :=
  let file_content := process_uploaded_file mime pdfPages decoded reader_fails
  let db1 := update_chat_title db chat_id ("Data: " ++ fname)
  let db2 := save_msg db1 chat_id "user" ("Uploaded: " ++ fname) (some email) false
  let sys := "You are " ++ APP_NAME ++ "."
  let prompt := "Analyze this file:\n" ++ file_content
  match infer [ApiMsg.mk "system" sys, ApiMsg.mk "user" prompt] with
  | Except.ok resp =>
    UploadOutcome.mk (save_msg db2 chat_id "assistant" resp (some email) false) false true
  | Except.error _ => UploadOutcome.mk db2 true false

/-! ## Transcript rendering (app.py lines 310-320) -/

/-- What the rendering loop displays for one message. -/
inductive Rendered where
  | plain (content : String)
  | thinking (collapsed primary : String)
deriving DecidableEq

/-- Result of rendering one message: either a display, or the
unhandled out-of-range list access. -/
inductive RenderResult where
  | ok (r : Rendered)
  | indexError
deriving DecidableEq

/-- app.py lines 313-320: if the content contains `<thinking>`, split
it on `</thinking>`; element 0, with `<thinking>` removed and
whitespace stripped, becomes the collapsed block, and element 1 the
primary markdown. Accessing element 1 of a one-element split is the
out-of-range error the source does not guard against, surfaced here as
the `RenderResult.indexError` case. -/
def renderMessage (content : String) : RenderResult :=
  if containsSub content "<thinking>" then
    let parts := pySplit content.data ("</thinking>".data)
    if h : 1 < parts.length then
      RenderResult.ok (Rendered.thinking
        (String.mk (pyStrip (pyReplace (parts.get
          (Fin.mk 0 (Nat.lt_of_le_of_lt (Nat.zero_le 1) h))) ("<thinking>".data) [])))
        (String.mk (parts.get (Fin.mk 1 h))))
    else RenderResult.indexError
  else RenderResult.ok (Rendered.plain content)

/-- The amended rendering rule, written from the corrected spec wording
rather than from the source, for comparison with `renderMessage`: split
the content on the closing tag; segment 0, with every opening-tag
occurrence removed and surrounding whitespace stripped, is the
collapsed analytic-process block, and segment 1 (the part after the
first closing tag, up to the next occurrence if any) is the primary
answer. -/
def spec_render_rule (content : String) : Rendered :=
  let parts := pySplit content.data ("</thinking>".data)
  Rendered.thinking
    (String.mk (pyStrip (pyReplace (parts.getD 0 []) ("<thinking>".data) [])))
    (String.mk (parts.getD 1 []))

/-! ## Helper lemmas -/

/-- The textual form of a foreign-key violation carries the code 23503
that `save_msg` tests for. -/
theorem fk_error_has_code :
    containsSub (str_of_error InsertError.fkViolation) "23503" = true := by decide

/-- The textual form of any other error class does not carry 23503. -/
theorem other_error_no_code :
    containsSub (str_of_error InsertError.otherError) "23503" = false := by decide

/-- When the conversation row exists, `save_msg` is a plain append to
the message table. -/
theorem save_msg_ok (db : Db) (cid role content : String) (efb : Option String)
    (h : chat_exists db cid = true) :
    save_msg db cid role content efb false
      = { db with messages := db.messages ++ [Msg.mk cid role content] } := by
  simp [save_msg, insert_message, h]

/-- When the conversation row is missing and a non-empty fallback email
is supplied, `save_msg` compensates: one new conversation row and one
new message row. -/
theorem save_msg_fk (db : Db) (cid role content em : String)
    (habsent : chat_exists db cid = false) (hem : (em != "") = true) :
    save_msg db cid role content (some em) false
      = Db.mk (db.sessions ++ [ChatSession.mk cid em "Restored Sequence"])
          (db.messages ++ [Msg.mk cid role content]) := by
  have hfirst : insert_message db (Msg.mk cid role content) false
      = Except.error InsertError.fkViolation := by
    simp [insert_message, habsent]
  have hnew : chat_exists
      (Db.mk (db.sessions ++ [ChatSession.mk cid em "Restored Sequence"]) db.messages)
      cid = true := by
    simp [chat_exists, List.any_append]
  have hsecond : insert_message
      (Db.mk (db.sessions ++ [ChatSession.mk cid em "Restored Sequence"]) db.messages)
      (Msg.mk cid role content) false
      = Except.ok (Db.mk (db.sessions ++ [ChatSession.mk cid em "Restored Sequence"])
          (db.messages ++ [Msg.mk cid role content])) := by
    simp [insert_message, hnew]
  simp [save_msg, hfirst, insert_session, hsecond, truthy, hem, fk_error_has_code]

/-- When the conversation row is missing and the fallback email is
falsy (absent or empty), the message is dropped. -/
theorem save_msg_no_compensation (db : Db) (cid role content : String) (efb : Option String)
    (habsent : chat_exists db cid = false) (htr : truthy efb = false) :
    save_msg db cid role content efb false = db := by
  simp [save_msg, insert_message, habsent, htr]

/-- An error of any other class is never retried: the database is left
untouched whatever the fallback email. -/
theorem save_msg_fault (db : Db) (cid role content : String) (efb : Option String) :
    save_msg db cid role content efb true = db := by
  simp [save_msg, insert_message, other_error_no_code]

/-- `save_msg` either drops the message or appends exactly it. -/
theorem save_msg_messages_cases (db : Db) (cid role content : String)
    (efb : Option String) (fault : Bool) :
    (save_msg db cid role content efb fault).messages = db.messages
    ∨ (save_msg db cid role content efb fault).messages
        = db.messages ++ [Msg.mk cid role content] := by
  cases fault with
  | true => left; rw [save_msg_fault]
  | false =>
    by_cases h : chat_exists db cid = true
    · right; rw [save_msg_ok db cid role content efb h]
    · have habsent : chat_exists db cid = false := by
        cases hc : chat_exists db cid with
        | true => exact absurd hc h
        | false => rfl
      by_cases htr : truthy efb = true
      · cases efb with
        | none => exact absurd htr (by simp [truthy])
        | some em =>
          right
          rw [save_msg_fk db cid role content em habsent (by simpa [truthy] using htr)]
      · left
        rw [save_msg_no_compensation db cid role content efb habsent
          (by cases ht : truthy efb with
              | true => exact absurd ht htr
              | false => rfl)]

/-- `save_msg` with a role different from `rq` never changes the number
of `rq`-messages. -/
theorem countRole_save_msg (db : Db) (cid role content : String) (efb : Option String)
    (fault : Bool) (rq : String) (h : (role == rq) = false) :
    countRole (save_msg db cid role content efb fault).messages rq
      = countRole db.messages rq := by
  rcases save_msg_messages_cases db cid role content efb fault with hc | hc <;> rw [hc]
  simp [countRole, List.filter_append, h]

/-- Rewriting a conversation title never changes which conversation ids
exist. -/
theorem any_map_update (ss : List ChatSession) (cid t cid2 : String) :
    ((ss.map (fun s => if s.chat_id == cid then { s with title := t } else s)).any
        (fun s => s.chat_id == cid2))
      = ss.any (fun s => s.chat_id == cid2) := by
  induction ss with
  | nil => rfl
  | cons s ss ih =>
    simp only [List.map_cons, List.any_cons, ih]
    by_cases h : (s.chat_id == cid) = true <;> simp [h]

/-- `update_chat_title` preserves `chat_exists`. -/
theorem chat_exists_update_title (db : Db) (cid t cid2 : String) :
    chat_exists (update_chat_title db cid t) cid2 = chat_exists db cid2 := by
  cases db with
  | mk ss ms => exact any_map_update ss cid t cid2

/-! ## Claim theorems -/

/-- C1: a message insert failing with a foreign-key-violation class
error and a supplied owner email makes `save_msg` recreate the missing
conversation (same chat id, owner email, placeholder title) and retry
the insert once, producing exactly one compensating conversation row
and one message row; without an owner email no compensation happens and
the message is dropped; any other error class is never retried. -/
theorem c1_save_msg_retry_policy (db : Db) (cid role content em : String)
    (hem : (em != "") = true) (habsent : chat_exists db cid = false) :
    save_msg db cid role content (some em) false
      = Db.mk (db.sessions ++ [ChatSession.mk cid em "Restored Sequence"])
          (db.messages ++ [Msg.mk cid role content])
    ∧ save_msg db cid role content none false = db
    ∧ ∀ efb : Option String, save_msg db cid role content efb true = db :=
  ⟨save_msg_fk db cid role content em habsent hem,
   save_msg_no_compensation db cid role content none habsent rfl,
   fun efb => save_msg_fault db cid role content efb⟩

/-- C1 witness: concrete run on an empty database. -/
theorem c1_save_msg_retry_policy_witness :
    (("u@x" != "") = true) ∧ chat_exists (Db.mk [] []) "c1" = false
    ∧ (save_msg (Db.mk [] []) "c1" "user" "hi" (some "u@x") false
        = Db.mk [ChatSession.mk "c1" "u@x" "Restored Sequence"] [Msg.mk "c1" "user" "hi"]
      ∧ save_msg (Db.mk [] []) "c1" "user" "hi" none false = Db.mk [] []
      ∧ ∀ efb : Option String, save_msg (Db.mk [] []) "c1" "user" "hi" efb true = Db.mk [] []) :=
  ⟨by decide, by decide,
   c1_save_msg_retry_policy (Db.mk [] []) "c1" "user" "hi" "u@x" (by decide) (by decide)⟩

/-- C2: with no authorization code and no stored token pair, one pass
of the auth recovery block deterministically yields `NO_SESSION`, the
state is left untouched, no exchange is attempted, no session install
is attempted, and no rerun is forced. -/
theorem c2_no_code_no_session_deterministic (env : AuthEnv) (s : ReqState)
    (h1 : s.query_code = none) (h2 : s.auth_session = none) :
    auth_recovery_flow env s
      = FlowResult.mk s (some AuthOutcome.NO_SESSION) false false false false := by
  have hs : s = ReqState.mk none none := by
    cases s with
    | mk qc sa => simp_all
  subst hs
  simp [auth_recovery_flow, install_stored]

/-- C2 witness: concrete environment and empty request state. -/
theorem c2_no_code_no_session_deterministic_witness :
    (ReqState.mk none none).query_code = none
    ∧ (ReqState.mk none none).auth_session = none
    ∧ auth_recovery_flow
        (AuthEnv.mk (fun _ => ExchangeResult.failure "e") (fun _ => false))
        (ReqState.mk none none)
      = FlowResult.mk (ReqState.mk none none) (some AuthOutcome.NO_SESSION)
          false false false false :=
  ⟨rfl, rfl,
   c2_no_code_no_session_deterministic
     (AuthEnv.mk (fun _ => ExchangeResult.failure "e") (fun _ => false))
     (ReqState.mk none none) rfl rfl⟩

/-- C3: when the code exchange succeeds, the pass ends with the code
stripped from the visible state, the token pair stored, and a fresh
render pass forced. -/
theorem c3_code_exchange_success (env : AuthEnv) (s : ReqState) (code : String)
    (tp : TokenPair) (hq : s.query_code = some code)
    (hx : env.exchange code = ExchangeResult.success tp) :
    (auth_recovery_flow env s).state.query_code = none
    ∧ (auth_recovery_flow env s).state.auth_session = some tp
    ∧ (auth_recovery_flow env s).rerun = true := by
  cases s with
  | mk qc sa =>
    simp only at hq
    subst hq
    simp [auth_recovery_flow, hx]

/-- C3 witness: concrete successful exchange. -/
theorem c3_code_exchange_success_witness :
    (ReqState.mk (some "x") none).query_code = some "x"
    ∧ (AuthEnv.mk (fun _ => ExchangeResult.success (TokenPair.mk "a" "r"))
        (fun _ => true)).exchange "x" = ExchangeResult.success (TokenPair.mk "a" "r")
    ∧ ((auth_recovery_flow
          (AuthEnv.mk (fun _ => ExchangeResult.success (TokenPair.mk "a" "r")) (fun _ => true))
          (ReqState.mk (some "x") none)).state.query_code = none
      ∧ (auth_recovery_flow
          (AuthEnv.mk (fun _ => ExchangeResult.success (TokenPair.mk "a" "r")) (fun _ => true))
          (ReqState.mk (some "x") none)).state.auth_session = some (TokenPair.mk "a" "r")
      ∧ (auth_recovery_flow
          (AuthEnv.mk (fun _ => ExchangeResult.success (TokenPair.mk "a" "r")) (fun _ => true))
          (ReqState.mk (some "x") none)).rerun = true) :=
  ⟨rfl, rfl,
   c3_code_exchange_success
     (AuthEnv.mk (fun _ => ExchangeResult.success (TokenPair.mk "a" "r")) (fun _ => true))
     (ReqState.mk (some "x") none) "x" (TokenPair.mk "a" "r") rfl rfl⟩

/-- C4 counterexample: a request carrying a stale code while a valid
token pair is stored in the session holder ends `AUTHENTICATED`, not
`NO_SESSION`, even though the exchange failed. -/
theorem c4_counterexample :
    (auth_recovery_flow
        (AuthEnv.mk (fun _ => ExchangeResult.failure "stale") (fun _ => true))
        (ReqState.mk (some "x") (some (TokenPair.mk "a" "r")))).outcome
      = some (AuthOutcome.AUTHENTICATED (TokenPair.mk "a" "r"))
    ∧ (auth_recovery_flow
        (AuthEnv.mk (fun _ => ExchangeResult.failure "stale") (fun _ => true))
        (ReqState.mk (some "x") (some (TokenPair.mk "a" "r")))).outcome
      ≠ some AuthOutcome.NO_SESSION := by decide

/-- C4 (amended): when the exchange fails the code is silently
discarded and no error is surfaced on any request; the fall-back to
`NO_SESSION` holds for the requests with no stored token pair. -/
theorem c4_code_exchange_failure (env : AuthEnv) (s : ReqState) (code err : String)
    (hq : s.query_code = some code)
    (hx : env.exchange code = ExchangeResult.failure err) :
    (auth_recovery_flow env s).state.query_code = none
    ∧ (auth_recovery_flow env s).error_surfaced = false
    ∧ (s.auth_session = none →
        auth_recovery_flow env s
          = FlowResult.mk (ReqState.mk none none) (some AuthOutcome.NO_SESSION)
              false true false false) := by
  cases s with
  | mk qc sa =>
    simp only at hq
    subst hq
    cases sa with
    | none => simp [auth_recovery_flow, hx, install_stored]
    | some tp =>
      by_cases h : env.set_session_ok tp = true <;>
        simp [auth_recovery_flow, hx, install_stored, h]

/-- C4 witness: concrete failing exchange with no stored pair. -/
theorem c4_code_exchange_failure_witness :
    (ReqState.mk (some "x") none).query_code = some "x"
    ∧ (AuthEnv.mk (fun _ => ExchangeResult.failure "stale") (fun _ => true)).exchange "x"
        = ExchangeResult.failure "stale"
    ∧ ((auth_recovery_flow
          (AuthEnv.mk (fun _ => ExchangeResult.failure "stale") (fun _ => true))
          (ReqState.mk (some "x") none)).state.query_code = none
      ∧ (auth_recovery_flow
          (AuthEnv.mk (fun _ => ExchangeResult.failure "stale") (fun _ => true))
          (ReqState.mk (some "x") none)).error_surfaced = false
      ∧ ((ReqState.mk (some "x") none).auth_session = none →
          auth_recovery_flow
              (AuthEnv.mk (fun _ => ExchangeResult.failure "stale") (fun _ => true))
              (ReqState.mk (some "x") none)
            = FlowResult.mk (ReqState.mk none none) (some AuthOutcome.NO_SESSION)
                false true false false)) :=
  ⟨rfl, rfl,
   c4_code_exchange_failure
     (AuthEnv.mk (fun _ => ExchangeResult.failure "stale") (fun _ => true))
     (ReqState.mk (some "x") none) "x" "stale" rfl rfl⟩

/-- C5: if the streaming call raises (after any number of chunks), the
turn ends with the error shown, no rerun, the database exactly as it
was after the user message was saved, the assistant message count
unchanged, and only user-role messages appended to the previously
persisted ones. -/
theorem c5_stream_failure_discards_partial (db : Db) (user_premium : Bool)
    (cid em fp : String) (streamFn : List ApiMsg → StreamOutcome)
    (chunks : List (Option String))
    (hs : streamFn (assemble_transcript user_premium (get_msgs db cid) fp)
        = StreamOutcome.raisesAfter chunks) :
    (submit_turn db user_premium cid em fp streamFn).error_shown = true
    ∧ (submit_turn db user_premium cid em fp streamFn).rerun = false
    ∧ (submit_turn db user_premium cid em fp streamFn).db
        = save_msg db cid "user" fp (some em) false
    ∧ countRole (submit_turn db user_premium cid em fp streamFn).db.messages "assistant"
        = countRole db.messages "assistant"
    ∧ ∃ t, (submit_turn db user_premium cid em fp streamFn).db.messages
          = db.messages ++ t ∧ ∀ m ∈ t, m.role = "user" := by
  have hr : submit_turn db user_premium cid em fp streamFn
      = TurnOutcome.mk (save_msg db cid "user" fp (some em) false) true false := by
    simp only [submit_turn]
    rw [hs]
  refine ⟨by rw [hr], by rw [hr], by rw [hr], ?_, ?_⟩
  · rw [hr]
    exact countRole_save_msg db cid "user" fp (some em) false "assistant" (by decide)
  · rw [hr]
    rcases save_msg_messages_cases db cid "user" fp (some em) false with hc | hc
    · exact ⟨[], by simpa using hc, by simp⟩
    · exact ⟨[Msg.mk cid "user" fp], by simpa using hc, by simp⟩

/-- C5 witness: the stream raises after the partial chunk `Hel`. -/
theorem c5_stream_failure_discards_partial_witness :
    ((fun _ : List ApiMsg => StreamOutcome.raisesAfter [some "Hel"])
        (assemble_transcript true
          (get_msgs (Db.mk [ChatSession.mk "c1" "u@x" "t"] [Msg.mk "c1" "user" "old"]) "c1")
          "hi")
      = StreamOutcome.raisesAfter [some "Hel"])
    ∧ ((submit_turn (Db.mk [ChatSession.mk "c1" "u@x" "t"] [Msg.mk "c1" "user" "old"])
          true "c1" "u@x" "hi"
          (fun _ => StreamOutcome.raisesAfter [some "Hel"])).error_shown = true
      ∧ (submit_turn (Db.mk [ChatSession.mk "c1" "u@x" "t"] [Msg.mk "c1" "user" "old"])
          true "c1" "u@x" "hi"
          (fun _ => StreamOutcome.raisesAfter [some "Hel"])).rerun = false
      ∧ (submit_turn (Db.mk [ChatSession.mk "c1" "u@x" "t"] [Msg.mk "c1" "user" "old"])
          true "c1" "u@x" "hi"
          (fun _ => StreamOutcome.raisesAfter [some "Hel"])).db
        = save_msg (Db.mk [ChatSession.mk "c1" "u@x" "t"] [Msg.mk "c1" "user" "old"])
            "c1" "user" "hi" (some "u@x") false
      ∧ countRole (submit_turn (Db.mk [ChatSession.mk "c1" "u@x" "t"] [Msg.mk "c1" "user" "old"])
            true "c1" "u@x" "hi"
            (fun _ => StreamOutcome.raisesAfter [some "Hel"])).db.messages "assistant"
        = countRole (Db.mk [ChatSession.mk "c1" "u@x" "t"]
            [Msg.mk "c1" "user" "old"]).messages "assistant"
      ∧ ∃ t, (submit_turn (Db.mk [ChatSession.mk "c1" "u@x" "t"] [Msg.mk "c1" "user" "old"])
            true "c1" "u@x" "hi"
            (fun _ => StreamOutcome.raisesAfter [some "Hel"])).db.messages
          = (Db.mk [ChatSession.mk "c1" "u@x" "t"] [Msg.mk "c1" "user" "old"]).messages ++ t
          ∧ ∀ m ∈ t, m.role = "user") :=
  ⟨rfl,
   c5_stream_failure_discards_partial
     (Db.mk [ChatSession.mk "c1" "u@x" "t"] [Msg.mk "c1" "user" "old"])
     true "c1" "u@x" "hi" (fun _ => StreamOutcome.raisesAfter [some "Hel"])
     [some "Hel"] rfl⟩

/-- C6 counterexample: on an upload whose inference call fails, one new
message (the user upload notice) has already been persisted, not zero
as the claim states. -/
theorem c6_counterexample :
    (handle_upload (Db.mk [ChatSession.mk "c1" "u@x" "New Sequence"] []) "c1" "u@x"
        "notes.txt" "text/plain" [] (some "abc") false
        (fun _ => Except.error "boom")).db.messages
      = [Msg.mk "c1" "user" "Uploaded: notes.txt"]
    ∧ (handle_upload (Db.mk [ChatSession.mk "c1" "u@x" "New Sequence"] []) "c1" "u@x"
        "notes.txt" "text/plain" [] (some "abc") false
        (fun _ => Except.error "boom")).db.messages.length
      ≠ (Db.mk [ChatSession.mk "c1" "u@x" "New Sequence"] []).messages.length := by decide

/-- C6 (amended): a successful upload produces exactly two new messages
(user then assistant) and renames the conversation; a failed inference
call leaves exactly one new message (the already-persisted user upload
notice), the rename still applied, and only a transient error notice;
the extraction outcome (including failure, which substitutes a sentinel
string) does not change these message effects. -/
theorem c6_upload_message_effects (db : Db) (cid em fname mime resp err : String)
    (pdfPages : List String) (decoded : Option String) (rf : Bool)
    (hex : chat_exists db cid = true) :
    (handle_upload db cid em fname mime pdfPages decoded rf (fun _ => Except.ok resp)).db
      = Db.mk (update_chat_title db cid ("Data: " ++ fname)).sessions
          (db.messages ++ [Msg.mk cid "user" ("Uploaded: " ++ fname),
            Msg.mk cid "assistant" resp])
    ∧ (handle_upload db cid em fname mime pdfPages decoded rf (fun _ => Except.error err)).db
      = Db.mk (update_chat_title db cid ("Data: " ++ fname)).sessions
          (db.messages ++ [Msg.mk cid "user" ("Uploaded: " ++ fname)])
    ∧ (handle_upload db cid em fname mime pdfPages decoded rf
        (fun _ => Except.error err)).error_shown = true := by
  have h1 : chat_exists (update_chat_title db cid ("Data: " ++ fname)) cid = true := by
    rw [chat_exists_update_title]; exact hex
  have h2 : save_msg (update_chat_title db cid ("Data: " ++ fname)) cid "user"
      ("Uploaded: " ++ fname) (some em) false
      = { update_chat_title db cid ("Data: " ++ fname) with
          messages := (update_chat_title db cid ("Data: " ++ fname)).messages
            ++ [Msg.mk cid "user" ("Uploaded: " ++ fname)] } :=
    save_msg_ok (update_chat_title db cid ("Data: " ++ fname)) cid "user"
      ("Uploaded: " ++ fname) (some em) h1
  refine ⟨?_, ?_, ?_⟩
  · simp only [handle_upload, h2]
    rw [save_msg_ok _ cid "assistant" resp (some em) (by simpa [chat_exists] using h1)]
    simp [update_chat_title]
  · simp only [handle_upload, h2]
    simp [update_chat_title]
  · simp only [handle_upload, h2]

/-- C6 witness: the `notes.txt` scenario, in its success and failure
variants. -/
theorem c6_upload_message_effects_witness :
    chat_exists (Db.mk [ChatSession.mk "c1" "u@x" "New Sequence"] []) "c1" = true
    ∧ ((handle_upload (Db.mk [ChatSession.mk "c1" "u@x" "New Sequence"] []) "c1" "u@x"
          "notes.txt" "text/plain" [] (some "abc") false (fun _ => Except.ok "analysis")).db
        = Db.mk (update_chat_title (Db.mk [ChatSession.mk "c1" "u@x" "New Sequence"] [])
              "c1" ("Data: " ++ "notes.txt")).sessions
            ((Db.mk [ChatSession.mk "c1" "u@x" "New Sequence"] []).messages
              ++ [Msg.mk "c1" "user" ("Uploaded: " ++ "notes.txt"),
                Msg.mk "c1" "assistant" "analysis"])
      ∧ (handle_upload (Db.mk [ChatSession.mk "c1" "u@x" "New Sequence"] []) "c1" "u@x"
          "notes.txt" "text/plain" [] (some "abc") false (fun _ => Except.error "boom")).db
        = Db.mk (update_chat_title (Db.mk [ChatSession.mk "c1" "u@x" "New Sequence"] [])
              "c1" ("Data: " ++ "notes.txt")).sessions
            ((Db.mk [ChatSession.mk "c1" "u@x" "New Sequence"] []).messages
              ++ [Msg.mk "c1" "user" ("Uploaded: " ++ "notes.txt")])
      ∧ (handle_upload (Db.mk [ChatSession.mk "c1" "u@x" "New Sequence"] []) "c1" "u@x"
          "notes.txt" "text/plain" [] (some "abc") false
          (fun _ => Except.error "boom")).error_shown = true) :=
  ⟨by decide,
   c6_upload_message_effects (Db.mk [ChatSession.mk "c1" "u@x" "New Sequence"] [])
     "c1" "u@x" "notes.txt" "text/plain" "analysis" "boom" [] (some "abc") false
     (by decide)⟩

/-- C7: the transcript of every submitted turn starts with the
tier-dependent system instruction; the premium wording contains the
reasoning-tag instruction and the non-premium wording does not. -/
theorem c7_system_prompt_by_tier (msgs : List Msg) (final_prompt : String) :
    (∃ rest, assemble_transcript true msgs final_prompt
        = ApiMsg.mk "system" (turn_system_prompt true) :: rest)
    ∧ (∃ rest, assemble_transcript false msgs final_prompt
        = ApiMsg.mk "system" (turn_system_prompt false) :: rest)
    ∧ containsSub (turn_system_prompt true) "Use <thinking> tags for reasoning." = true
    ∧ containsSub (turn_system_prompt false) "Use <thinking> tags for reasoning." = false :=
  ⟨⟨_, rfl⟩, ⟨_, rfl⟩, by decide, by decide⟩

/-- C8 counterexample: with a second closing tag in the content, the
primary block shows only the segment between the two closing tags, not
everything after the matching closing tag as the claim states. -/
theorem c8_counterexample :
    renderMessage "<thinking>a</thinking>b</thinking>c"
      = RenderResult.ok (Rendered.thinking "a" "b")
    ∧ renderMessage "<thinking>a</thinking>b</thinking>c"
      ≠ RenderResult.ok (Rendered.thinking "a" "b</thinking>c") := by decide

/-- C8 (amended): every content holding the opening tag (and at least
one closing tag, without which rendering crashes, see C10) renders by
the split rule of `spec_render_rule`: segment 0 of the split on the
closing tag, with opening tags removed and whitespace stripped, is the
collapsed block and segment 1 (the part after the first closing tag,
up to the next one if any) the primary answer; in particular the spec
example renders as collapsed `secret plan` and primary `final
answer`. -/
theorem c8_render_thinking_split (content : String)
    (hopen : containsSub content "<thinking>" = true)
    (hclose : containsSub content "</thinking>" = true) :
    renderMessage content = RenderResult.ok (spec_render_rule content)
    ∧ renderMessage "<thinking>secret plan</thinking>final answer"
      = RenderResult.ok (Rendered.thinking "secret plan" "final answer")
    ∧ spec_render_rule "<thinking>secret plan</thinking>final answer"
      = Rendered.thinking "secret plan" "final answer"
    ∧ renderMessage "<thinking>a</thinking>b</thinking>c"
      = RenderResult.ok (Rendered.thinking "a" "b") := by
  have hlen : 1 < (pySplit content.data ("</thinking>".data)).length := by
    unfold containsSub at hclose
    exact of_decide_eq_true hclose
  refine ⟨?_, by decide, by decide, by decide⟩
  simp [renderMessage, spec_render_rule, hopen, hlen,
    List.getElem?_eq_getElem, Nat.lt_of_le_of_lt (Nat.zero_le 1) hlen]

/-- C8 witness: the spec example exercises both containment
hypotheses. -/
theorem c8_render_thinking_split_witness :
    containsSub "<thinking>secret plan</thinking>final answer" "<thinking>" = true
    ∧ containsSub "<thinking>secret plan</thinking>final answer" "</thinking>" = true
    ∧ (renderMessage "<thinking>secret plan</thinking>final answer"
        = RenderResult.ok (spec_render_rule "<thinking>secret plan</thinking>final answer")
      ∧ renderMessage "<thinking>secret plan</thinking>final answer"
        = RenderResult.ok (Rendered.thinking "secret plan" "final answer")
      ∧ spec_render_rule "<thinking>secret plan</thinking>final answer"
        = Rendered.thinking "secret plan" "final answer"
      ∧ renderMessage "<thinking>a</thinking>b</thinking>c"
        = RenderResult.ok (Rendered.thinking "a" "b")) :=
  ⟨by decide, by decide,
   c8_render_thinking_split "<thinking>secret plan</thinking>final answer"
     (by decide) (by decide)⟩

/-- C9: the storage operations never fail on missing keys: getting an
absent key yields `none` and removing an absent key leaves the storage
untouched. -/
theorem c9_memory_storage_missing_keys (s : MemoryStorage) (key : String)
    (h : s.storage.lookup key = none) :
    get_item s key = none ∧ remove_item s key = s := by
  refine ⟨h, ?_⟩
  simp [remove_item, h]

/-- C9 witness: a storage holding only key `a`, probed at key `b`. -/
theorem c9_memory_storage_missing_keys_witness :
    (MemoryStorage.mk [("a", "1")]).storage.lookup "b" = none
    ∧ (get_item (MemoryStorage.mk [("a", "1")]) "b" = none
      ∧ remove_item (MemoryStorage.mk [("a", "1")]) "b" = MemoryStorage.mk [("a", "1")]) :=
  ⟨by decide, c9_memory_storage_missing_keys (MemoryStorage.mk [("a", "1")]) "b" (by decide)⟩

/-- C10: a content with the opening tag but no closing tag makes the
rendering step index past the end of the one-element split: the loop is
not total and raises instead of displaying the message. -/
theorem c10_unclosed_thinking_not_total (content : String)
    (hopen : containsSub content "<thinking>" = true)
    (hclose : containsSub content "</thinking>" = false) :
    renderMessage content = RenderResult.indexError := by
  have h2 : ¬ 1 < (pySplit content.data ("</thinking>".data)).length := by
    unfold containsSub at hclose
    exact of_decide_eq_false hclose
  simp [renderMessage, hopen, h2]

/-- C10 witness: the content `<thinking>oops` crashes the renderer. -/
theorem c10_unclosed_thinking_not_total_witness :
    containsSub "<thinking>oops" "<thinking>" = true
    ∧ containsSub "<thinking>oops" "</thinking>" = false
    ∧ renderMessage "<thinking>oops" = RenderResult.indexError :=
  ⟨by decide, by decide,
   c10_unclosed_thinking_not_total "<thinking>oops" (by decide) (by decide)⟩

end SentientOS
